import Mathlib

/-!
Shallow embedding of the Z-REALISM client-side job controller.

The embedding covers the two revisions of the custom laboratory controller
(`src/presentation-custom/app.js`, Research Controller v19.7, and the earlier
v19.5 revision of the same file), the shared API bridge
(`src/presentation/js/api.js`, `pollNeuralTask`), and the submission guard of
the static fusion controller (`src/presentation/js/lab-image.js`).

Numeric slider/metric values are modelled as exact rationals; the JavaScript
sources only compare and clamp them against fixed decimal constants, so the
ordering and clamping behaviour is captured faithfully.  `Math.random()` draws
are passed in explicitly as rational arguments.  Network traffic is made
explicit: functions that may contact the server return the number of HTTP
requests they perform, and the poll loops are modelled one tick at a time with
the observed server response (or a transport error) as input.
-/

/-- Tunable generation parameters (`state.recommendedParams` in app.js). -/
structure RecommendedParams where
  cn_depth : ℚ
  cn_pose : ℚ
  strength : ℚ
  negative_prompt : String
  seed : ℕ
deriving Repr, DecidableEq

/-- Quality metrics returned by the server for one completed job. -/
structure Metrics where
  structural_similarity : ℚ
  identity_preservation : ℚ
  inference_time : ℚ
deriving Repr, DecidableEq

/-- One completed attempt, as assembled in `renderFinalMasterwork`
(app.js lines 278-283): `{ id, b64, metrics, params }`.  Note that no
fitness/score field is stored on the candidate. -/
structure Candidate where
  id : String
  b64 : String
  metrics : Metrics
  params : RecommendedParams
deriving Repr, DecidableEq

/-- Auto-pilot state (`state.optimization` in app.js). -/
structure Optimization where
  active : Bool
  attempts : ℕ
  maxAttempts : ℕ
  targetThreshold : ℚ
  bestScore : ℚ
  history : List Candidate
deriving Repr, DecidableEq

/-- The global controller state of app.js (the fields relevant to the job
lifecycle; DOM references are omitted). -/
structure ControllerState where
  taskId : Option String
  isProcessing : Bool
  selectedFile : Option String
  recommendedParams : RecommendedParams
  optimization : Optimization
deriving Repr, DecidableEq

/-- The literal initial `state` object of app.js v19.7 (lines 25-49). -/
def initialState : ControllerState :=
  { taskId := none
    isProcessing := false
    selectedFile := none
    recommendedParams :=
      { cn_depth := 0.75, cn_pose := 0.40, strength := 0.70
        negative_prompt := "anime, cartoon, low quality", seed := 42 }
    optimization :=
      { active := false, attempts := 0, maxAttempts := 5
        targetThreshold := 0.92, bestScore := 0, history := [] } }

/-- Session reset performed by `initializeFusion` (app.js lines 152-157):
attempts and bestScore are zeroed, the active flag follows the auto-pilot
checkbox, and the candidate history is cleared. -/
def initializeFusion (st : ControllerState) (autoPilot : Bool) : ControllerState :=
  { st with optimization :=
      { st.optimization with
          attempts := 0, bestScore := 0, active := autoPilot, history := [] } }

/-- The scalar fitness recomputed by every consumer of a candidate's metrics:
`(m.structural_similarity + m.identity_preservation) / 2`
(app.js line 301 and line 354). -/
def fitness (m : Metrics) : ℚ :=
  (m.structural_similarity + m.identity_preservation) / 2

/-- The integer percentage shown on a gallery tile, recomputed from the
candidate's metrics in `addCandidateToGallery` (app.js line 354). -/
def galleryScore (c : Candidate) : ℤ :=
  round (((c.metrics.structural_similarity + c.metrics.identity_preservation) / 2) * 100)

/-- Parameter mutation of the v19.7 optimizer (app.js lines 318-322), applied
only when the loop continues: depth is raised by 0.03 (capped at 1.2) when
structural similarity is below 0.88; strength is lowered by 0.02 (floored at
0.50) when identity preservation is below 0.90, and otherwise raised by 0.01
(capped at 0.95); the seed is redrawn as `Math.floor(Math.random()*1000000)`. -/
def mutateParamsV197 (p : RecommendedParams) (m : Metrics) (rand : ℚ) :
    RecommendedParams :=
  let p1 := if m.structural_similarity < 0.88 then
      { p with cn_depth := min 1.2 (p.cn_depth + 0.03) } else p
  let p2 := if m.identity_preservation < 0.90 then
      { p1 with strength := max 0.50 (p1.strength - 0.02) }
    else
      { p1 with strength := min 0.95 (p1.strength + 0.01) }
  { p2 with seed := (⌊rand * 1000000⌋).toNat }

/-- Decision taken by one optimizer iteration: halt the session, or mutate the
parameters and schedule another `startFusingSequence`. -/
inductive LoopDecision
  | halt
  | resubmit
deriving Repr, DecidableEq

/-- Result of one `handleOptimizationLoop` call. -/
structure LoopResult where
  optimization : Optimization
  params : RecommendedParams
  decision : LoopDecision
deriving Repr, DecidableEq

/-- One iteration of the v19.7 optimization loop (`handleOptimizationLoop`,
app.js lines 299-325): increment the attempt counter, fold the candidate's
fitness into `bestScore`, halt (deactivating the session) when the target
threshold or the attempt budget is reached, and otherwise mutate the
parameters and resubmit. -/
def handleOptimizationLoop (opt : Optimization) (p : RecommendedParams)
    (c : Candidate) (rand : ℚ) : LoopResult :=
  let currentScore := fitness c.metrics
  let opt1 : Optimization := { opt with attempts := opt.attempts + 1 }
  let opt2 : Optimization :=
    if currentScore > opt1.bestScore then { opt1 with bestScore := currentScore } else opt1
  if currentScore ≥ opt2.targetThreshold ∨ opt2.attempts ≥ opt2.maxAttempts then
    { optimization := { opt2 with active := false }, params := p, decision := .halt }
  else
    { optimization := opt2, params := mutateParamsV197 p c.metrics rand
      decision := .resubmit }

/-- Sequence of optimization states produced by feeding a list of completed
candidates (each with the random draw used for its seed redraw) through the
v19.7 loop; the trace stops after the first halting iteration, mirroring the
fact that `startFusingSequence` is only rescheduled on the resubmit path. -/
def sessionTrace (opt : Optimization) (p : RecommendedParams) :
    List (Candidate × ℚ) → List Optimization
  | [] => []
  | (c, r) :: rest =>
    let res := handleOptimizationLoop opt p c r
    match res.decision with
    | .halt => [res.optimization]
    | .resubmit => res.optimization :: sessionTrace res.optimization res.params rest

/-- Sequence of parameter sets along the same session trace. -/
def paramsTrace (opt : Optimization) (p : RecommendedParams) :
    List (Candidate × ℚ) → List RecommendedParams
  | [] => []
  | (c, r) :: rest =>
    let res := handleOptimizationLoop opt p c r
    match res.decision with
    | .halt => [res.params]
    | .resubmit => res.params :: paramsTrace res.optimization res.params rest

/-- Parameter mutation of the earlier v19.5 revision of the same controller
(renderFinalMasterwork, lines 321-341 of that revision): depth +0.05 capped at
1.2 when structural similarity is below 0.85; strength -0.03 floored at 0.40
when identity preservation is below 0.90, otherwise +0.01 capped at 1.0; seed
redrawn; and pose perturbed by `(Math.random() - 0.5) * 0.05` clamped to
[0.2, 0.8].  `randSeed` and `randPose` are the two `Math.random()` draws. -/
def mutateParamsV195 (p : RecommendedParams) (m : Metrics)
    (randSeed randPose : ℚ) : RecommendedParams :=
  let p1 := if m.structural_similarity < 0.85 then
      { p with cn_depth := min 1.2 (p.cn_depth + 0.05) } else p
  let p2 := if m.identity_preservation < 0.90 then
      { p1 with strength := max 0.40 (p1.strength - 0.03) }
    else
      { p1 with strength := min 1.0 (p1.strength + 0.01) }
  let p3 := { p2 with seed := (⌊randSeed * 1000000⌋).toNat }
  { p3 with cn_pose := max 0.2 (min 0.8 (p3.cn_pose + (randPose - 0.5) * 0.05)) }

/-- The evolutionary-supervisor branch of the v19.5 `renderFinalMasterwork`
(lines 297-346 of that revision).  In v19.5 the attempt counter is incremented
in `startFusingSequence` before submission, so the supervisor only folds the
score, checks the threshold, checks the budget, and otherwise mutates. -/
def superviseV195 (opt : Optimization) (p : RecommendedParams) (m : Metrics)
    (randSeed randPose : ℚ) : LoopResult :=
  let currentScore := (m.structural_similarity + m.identity_preservation) / 2
  let opt1 : Optimization :=
    if currentScore > opt.bestScore then { opt with bestScore := currentScore } else opt
  if currentScore ≥ opt1.targetThreshold then
    { optimization := { opt1 with active := false }, params := p, decision := .halt }
  else if opt1.attempts ≥ opt1.maxAttempts then
    { optimization := { opt1 with active := false }, params := p, decision := .halt }
  else
    { optimization := opt1, params := mutateParamsV195 p m randSeed randPose
      decision := .resubmit }

/-- Server response observed by `startFusingSequence`'s POST to
`/transform`: a task id (HTTP 200), the hardware-busy status 429, or a thrown
transport error. -/
inductive TransformResponse
  | ok (taskId : String)
  | busy429
  | transportError
deriving Repr, DecidableEq

/-- Local outcome of one `startFusingSequence` call. -/
inductive SubmitOutcome
  | rejectedPrecondition
  | lockedBusy
  | dispatchFailed
  | pollingStarted
deriving Repr, DecidableEq

/-- The submission operation of app.js v19.7 (`startFusingSequence`, lines
207-232), returning the next controller state, the local outcome, and the
number of HTTP requests performed.  The guard on line 208 returns before any
request is built when no file is selected or `isProcessing` is already held;
otherwise `toggleControls(true)` takes the lock, the request is sent, and a
429 or a transport error releases the lock via `toggleControls(false)`. -/
def startFusingSequence (st : ControllerState) (resp : TransformResponse) :
    ControllerState × SubmitOutcome × ℕ :=
  if st.selectedFile.isNone || st.isProcessing then
    (st, .rejectedPrecondition, 0)
  else
    let locked := { st with isProcessing := true }
    match resp with
    | .busy429 => ({ locked with isProcessing := false }, .lockedBusy, 1)
    | .ok tid => ({ locked with taskId := some tid }, .pollingStarted, 1)
    | .transportError => ({ locked with isProcessing := false }, .dispatchFailed, 1)

/-- One event observed by a poll tick: a decoded `/status` payload, or the
fetch throwing (transport error). -/
inductive AppPollEvent
  | progress (percent : ℤ) (preview : Option String)
  | success
  | failure
  | transportError
deriving Repr, DecidableEq

/-- Observable effect of one tick of the v19.7 custom poll loop. -/
structure AppTickResult where
  st : ControllerState
  clearsInterval : Bool
  displayedPercent : Option ℤ
  schedulesRender : Bool
deriving Repr, DecidableEq

/-- One tick of `pollInferenceTelemetry` in app.js v19.7 (lines 234-270).
PROGRESS displays the received percent and keeps the interval; SUCCESS clears
the interval and schedules `renderFinalMasterwork`; FAILURE clears the
interval, deactivates the session and releases the lock; a thrown fetch error
(the catch on line 268) clears the interval and calls `toggleControls(false)`
- it does not touch `state.optimization.active`. -/
def pollInferenceTelemetryTick (st : ControllerState) (e : AppPollEvent) :
    AppTickResult :=
  match st.taskId with
  | none =>
    { st := st, clearsInterval := true, displayedPercent := none
      schedulesRender := false }
  | some _ =>
    match e with
    | .progress pct _ =>
      { st := st, clearsInterval := false, displayedPercent := some pct
        schedulesRender := false }
    | .success =>
      { st := st, clearsInterval := true, displayedPercent := none
        schedulesRender := true }
    | .failure =>
      { st := { st with
                  optimization := { st.optimization with active := false }
                  isProcessing := false }
        clearsInterval := true, displayedPercent := none, schedulesRender := false }
    | .transportError =>
      { st := { st with isProcessing := false }
        clearsInterval := true, displayedPercent := none, schedulesRender := false }

/-- HTTP response to the follow-up `/result/{task_id}` fetch as seen by the
shared bridge: a status code plus an opaque JSON body. -/
structure ResultFetchResponse where
  code : ℕ
  body : String
deriving Repr, DecidableEq

/-- The `Response.ok` predicate of the fetch API: status in [200, 300). -/
def responseOk (code : ℕ) : Bool :=
  200 ≤ code && code < 300

/-- One event observed by a tick of the shared bridge poller: a decoded
`/status` payload (with the result fetch it triggers on SUCCESS), or the
status fetch throwing. -/
inductive BridgePollEvent
  | progress (percent : ℤ) (statusText : String)
  | success (res : ResultFetchResponse)
  | failure
  | transportError
deriving Repr, DecidableEq

/-- What a tick of the shared bridge poller does to its interval and
callbacks. -/
inductive BridgeTickAction
  | keepPolling
  | stopWithComplete (payload : Option String)
  | stopSilently
deriving Repr, DecidableEq

/-- Observable effect of one tick of `pollNeuralTask`. -/
structure BridgeTickResult where
  action : BridgeTickAction
  progressOut : Option ℤ
deriving Repr, DecidableEq

/-- One tick of the shared bridge poller (`pollNeuralTask`, api.js lines
96-146).  PROGRESS delivers `rawProgress.percent || 0` to `onProgress`, except
that a percent of 0 is replaced by 2 (the "UI trick to show activity" on line
111) and keeps polling.  SUCCESS clears the interval and fetches the result:
if `resultResponse.ok` holds the decoded body is handed to `onComplete`
(a 202 response satisfies `ok`, so its body is delivered as-is), otherwise
nothing is delivered.  FAILURE clears the interval and completes with null.
A thrown fetch error is swallowed (`console.warn` only) and polling
continues. -/
def pollNeuralTaskTick : BridgePollEvent → BridgeTickResult
  | .progress pct _ =>
    { action := .keepPolling
      progressOut := some (if pct = 0 then 2 else pct) }
  | .success res =>
    { action :=
        if responseOk res.code then .stopWithComplete (some res.body)
        else .stopSilently
      progressOut := none }
  | .failure => { action := .stopWithComplete none, progressOut := none }
  | .transportError => { action := .keepPolling, progressOut := none }

/-- The percent values handed to `onProgress` by the shared bridge across a
list of received PROGRESS responses, one callback per response in order. -/
def progressDeliveries (percents : List ℤ) : List ℤ :=
  percents.filterMap fun pct => (pollNeuralTaskTick (.progress pct "")).progressOut

/-- Response to one `/result/{task_id}` fetch issued by the custom
controller's `renderFinalMasterwork`: the 202 pending status, a materialized
payload, or a thrown transport error. -/
inductive ResultResponse
  | pending202
  | ok (image_b64 : String) (metrics : Metrics)
  | transportError
deriving Repr, DecidableEq

/-- Observable outcome of the custom controller's result-fetch loop. -/
structure RenderOutcome where
  delivered : Option Candidate
  delaysMs : List ℕ
  errorHandled : Bool
deriving Repr, DecidableEq

/-- The result-fetch retry loop of `renderFinalMasterwork` in app.js v19.7
(lines 272-283): each 202 response schedules a retry of the whole function
after 500 ms; the first materialized response is decoded into a Candidate
carrying the parameters that produced it; a thrown error takes the catch
path.  The input list holds the successive responses of `/result`. -/
def renderFetchLoop (taskId : String) (p : RecommendedParams) :
    List ResultResponse → RenderOutcome
  | [] => { delivered := none, delaysMs := [], errorHandled := false }
  | .pending202 :: rest =>
    let r := renderFetchLoop taskId p rest
    { r with delaysMs := 500 :: r.delaysMs }
  | .ok b64 m :: _ =>
    { delivered := some { id := taskId, b64 := b64, metrics := m, params := p }
      delaysMs := [], errorHandled := false }
  | .transportError :: _ =>
    { delivered := none, delaysMs := [], errorHandled := true }

/-- Local outcome of one click on the generate button of the static fusion
controller. -/
inductive LabSubmitOutcome
  | localAlert
  | submitted
  | gatewayNull
deriving Repr, DecidableEq

/-- The submission guard of the static fusion controller
(`ui.btnGenerate.onclick`, lab-image.js lines 170-253): with no file selected
or a job already in flight, an alert is raised and the handler returns before
any request is built; otherwise `postToGateway('/transform', ...)` performs
one request, whose null result (gateway failure) is also handled locally. -/
def labImageGenerateOnclick (hasFile busy : Bool) (gatewayData : Option String) :
    LabSubmitOutcome × ℕ :=
  if !hasFile || busy then
    (.localAlert, 0)
  else
    match gatewayData with
    | some _ => (.submitted, 1)
    | none => (.gatewayNull, 1)

/-! Characterization lemmas for the v19.7 mutation and loop step. -/

theorem mutateV197_strength (p : RecommendedParams) (m : Metrics) (rand : ℚ) :
    (mutateParamsV197 p m rand).strength =
      if m.identity_preservation < 0.90 then max 0.50 (p.strength - 0.02)
      else min 0.95 (p.strength + 0.01) := by
  unfold mutateParamsV197
  split_ifs <;> rfl

theorem mutateV197_depth (p : RecommendedParams) (m : Metrics) (rand : ℚ) :
    (mutateParamsV197 p m rand).cn_depth =
      if m.structural_similarity < 0.88 then min 1.2 (p.cn_depth + 0.03)
      else p.cn_depth := by
  unfold mutateParamsV197
  split_ifs <;> rfl

theorem mutateV197_pose (p : RecommendedParams) (m : Metrics) (rand : ℚ) :
    (mutateParamsV197 p m rand).cn_pose = p.cn_pose := by
  unfold mutateParamsV197
  split_ifs <;> rfl

theorem mutateV195_strength (p : RecommendedParams) (m : Metrics)
    (randSeed randPose : ℚ) :
    (mutateParamsV195 p m randSeed randPose).strength =
      if m.identity_preservation < 0.90 then max 0.40 (p.strength - 0.03)
      else min 1.0 (p.strength + 0.01) := by
  unfold mutateParamsV195
  split_ifs <;> rfl

theorem mutateV195_depth (p : RecommendedParams) (m : Metrics)
    (randSeed randPose : ℚ) :
    (mutateParamsV195 p m randSeed randPose).cn_depth =
      if m.structural_similarity < 0.85 then min 1.2 (p.cn_depth + 0.05)
      else p.cn_depth := by
  unfold mutateParamsV195
  split_ifs <;> rfl

theorem mutateV195_pose (p : RecommendedParams) (m : Metrics)
    (randSeed randPose : ℚ) :
    (mutateParamsV195 p m randSeed randPose).cn_pose =
      max 0.2 (min 0.8 (p.cn_pose + (randPose - 0.5) * 0.05)) := by
  unfold mutateParamsV195
  split_ifs <;> rfl

theorem handleLoop_attempts (opt : Optimization) (p : RecommendedParams)
    (c : Candidate) (rand : ℚ) :
    (handleOptimizationLoop opt p c rand).optimization.attempts =
      opt.attempts + 1 := by
  unfold handleOptimizationLoop
  dsimp only
  split_ifs <;> rfl

theorem handleLoop_maxAttempts (opt : Optimization) (p : RecommendedParams)
    (c : Candidate) (rand : ℚ) :
    (handleOptimizationLoop opt p c rand).optimization.maxAttempts =
      opt.maxAttempts := by
  unfold handleOptimizationLoop
  dsimp only
  split_ifs <;> rfl

theorem handleLoop_targetThreshold (opt : Optimization) (p : RecommendedParams)
    (c : Candidate) (rand : ℚ) :
    (handleOptimizationLoop opt p c rand).optimization.targetThreshold =
      opt.targetThreshold := by
  unfold handleOptimizationLoop
  dsimp only
  split_ifs <;> rfl

theorem handleLoop_bestScore (opt : Optimization) (p : RecommendedParams)
    (c : Candidate) (rand : ℚ) :
    (handleOptimizationLoop opt p c rand).optimization.bestScore =
      max opt.bestScore (fitness c.metrics) := by
  unfold handleOptimizationLoop
  dsimp only
  split_ifs with h1 h2 h3 <;>
    first
      | exact (max_eq_right (le_of_lt (by assumption))).symm
      | exact (max_eq_left (le_of_not_lt (by assumption))).symm

theorem handleLoop_decision_iff (opt : Optimization) (p : RecommendedParams)
    (c : Candidate) (rand : ℚ) :
    (handleOptimizationLoop opt p c rand).decision = LoopDecision.resubmit ↔
      ¬(fitness c.metrics ≥ opt.targetThreshold ∨
        opt.attempts + 1 ≥ opt.maxAttempts) := by
  unfold handleOptimizationLoop
  dsimp only
  split_ifs <;> simp_all

theorem handleLoop_halt_state (opt : Optimization) (p : RecommendedParams)
    (c : Candidate) (rand : ℚ)
    (h : (handleOptimizationLoop opt p c rand).decision = LoopDecision.halt) :
    (handleOptimizationLoop opt p c rand).optimization.active = false ∧
    (handleOptimizationLoop opt p c rand).params = p := by
  unfold handleOptimizationLoop at h ⊢
  dsimp only at h ⊢
  split_ifs at h ⊢ <;> simp_all

theorem handleLoop_resubmit_params (opt : Optimization) (p : RecommendedParams)
    (c : Candidate) (rand : ℚ)
    (h : (handleOptimizationLoop opt p c rand).decision = LoopDecision.resubmit) :
    (handleOptimizationLoop opt p c rand).params =
      mutateParamsV197 p c.metrics rand := by
  unfold handleOptimizationLoop at h ⊢
  dsimp only at h ⊢
  split_ifs at h ⊢ <;> simp_all

theorem handleLoop_stop (opt : Optimization) (p : RecommendedParams)
    (c : Candidate) (rand : ℚ)
    (h : fitness c.metrics ≥ opt.targetThreshold ∨
         opt.attempts + 1 ≥ opt.maxAttempts) :
    (handleOptimizationLoop opt p c rand).optimization.active = false ∧
    (handleOptimizationLoop opt p c rand).decision = LoopDecision.halt := by
  have hd : (handleOptimizationLoop opt p c rand).decision = LoopDecision.halt := by
    cases hca : (handleOptimizationLoop opt p c rand).decision with
    | halt => rfl
    | resubmit => exact absurd h ((handleLoop_decision_iff opt p c rand).mp hca)
  exact ⟨(handleLoop_halt_state opt p c rand hd).1, hd⟩

/-! Trace-level lemmas for whole optimization sessions. -/

theorem sessionTrace_attempts_le (inputs : List (Candidate × ℚ)) :
    ∀ (opt : Optimization) (p : RecommendedParams),
      opt.attempts < opt.maxAttempts →
      ∀ o ∈ sessionTrace opt p inputs, o.attempts ≤ opt.maxAttempts := by
  induction inputs with
  | nil =>
    intro opt p _ o ho
    simp [sessionTrace] at ho
  | cons hd rest ih =>
    intro opt p h o ho
    obtain ⟨c, r⟩ := hd
    simp only [sessionTrace] at ho
    split at ho
    · rename_i hdec
      simp only [List.mem_singleton] at ho
      subst ho
      rw [handleLoop_attempts]
      omega
    · rename_i hdec
      rcases List.mem_cons.mp ho with rfl | hmem
      · rw [handleLoop_attempts]
        omega
      · have hcond := (handleLoop_decision_iff opt p c r).mp hdec
        push_neg at hcond
        have hlt : (handleOptimizationLoop opt p c r).optimization.attempts <
            (handleOptimizationLoop opt p c r).optimization.maxAttempts := by
          rw [handleLoop_attempts, handleLoop_maxAttempts]
          exact hcond.2
        have := ih _ _ hlt o hmem
        rwa [handleLoop_maxAttempts] at this

theorem sessionTrace_chain_bestScore (inputs : List (Candidate × ℚ)) :
    ∀ (opt : Optimization) (p : RecommendedParams),
      List.Chain' (fun a b : Optimization => a.bestScore ≤ b.bestScore)
        (opt :: sessionTrace opt p inputs) := by
  induction inputs with
  | nil =>
    intro opt p
    simp [sessionTrace]
  | cons hd rest ih =>
    intro opt p
    obtain ⟨c, r⟩ := hd
    simp only [sessionTrace]
    split
    · rw [List.chain'_cons]
      refine ⟨?_, List.chain'_singleton _⟩
      rw [handleLoop_bestScore]
      exact le_max_left _ _
    · rw [List.chain'_cons]
      refine ⟨?_, ih _ _⟩
      rw [handleLoop_bestScore]
      exact le_max_left _ _

theorem mutateV197_depth_bounds (p : RecommendedParams) (m : Metrics) (rand : ℚ)
    (h : p.cn_depth ≤ 1.2) :
    p.cn_depth ≤ (mutateParamsV197 p m rand).cn_depth ∧
    (mutateParamsV197 p m rand).cn_depth ≤ 1.2 := by
  rw [mutateV197_depth]
  split_ifs
  · exact ⟨le_min h (by linarith), min_le_left _ _⟩
  · exact ⟨le_refl _, h⟩

theorem paramsTrace_depth_bounds (inputs : List (Candidate × ℚ)) :
    ∀ (opt : Optimization) (p : RecommendedParams),
      p.cn_depth ≤ 1.2 →
      ∀ q ∈ paramsTrace opt p inputs,
        p.cn_depth ≤ q.cn_depth ∧ q.cn_depth ≤ 1.2 := by
  induction inputs with
  | nil =>
    intro opt p _ q hq
    simp [paramsTrace] at hq
  | cons hd rest ih =>
    intro opt p h q hq
    obtain ⟨c, r⟩ := hd
    simp only [paramsTrace] at hq
    split at hq
    · rename_i hdec
      simp only [List.mem_singleton] at hq
      subst hq
      rw [(handleLoop_halt_state opt p c r hdec).2]
      exact ⟨le_refl _, h⟩
    · rename_i hdec
      have hp' := handleLoop_resubmit_params opt p c r hdec
      have hstep := mutateV197_depth_bounds p c.metrics r h
      rcases List.mem_cons.mp hq with rfl | hmem
      · rw [hp']
        exact hstep
      · have := ih _ _ (hp' ▸ hstep.2) q hmem
        rw [hp'] at this
        exact ⟨le_trans hstep.1 this.1, this.2⟩

theorem paramsTrace_chain_depth (inputs : List (Candidate × ℚ)) :
    ∀ (opt : Optimization) (p : RecommendedParams),
      p.cn_depth ≤ 1.2 →
      List.Chain' (fun a b : RecommendedParams => a.cn_depth ≤ b.cn_depth)
        (p :: paramsTrace opt p inputs) := by
  induction inputs with
  | nil =>
    intro opt p _
    simp [paramsTrace]
  | cons hd rest ih =>
    intro opt p h
    obtain ⟨c, r⟩ := hd
    simp only [paramsTrace]
    split
    · rename_i hdec
      rw [(handleLoop_halt_state opt p c r hdec).2, List.chain'_cons]
      exact ⟨le_refl _, List.chain'_singleton _⟩
    · rename_i hdec
      have hp' := handleLoop_resubmit_params opt p c r hdec
      have hstep := mutateV197_depth_bounds p c.metrics r h
      rw [hp', List.chain'_cons]
      exact ⟨hstep.1, ih _ _ hstep.2⟩

/-! Concrete fixtures used by witnesses and counterexamples. -/

/-- An optimization state as produced at the start of an auto-pilot session. -/
def sampleOptActive : Optimization :=
  { active := true, attempts := 0, maxAttempts := 5, targetThreshold := 0.92
    bestScore := 0, history := [] }

/-- A concrete parameter set (the app.js defaults, with strength 0.51). -/
def sampleParams : RecommendedParams :=
  { cn_depth := 0.75, cn_pose := 0.40, strength := 0.51
    negative_prompt := "anime, cartoon, low quality", seed := 42 }

/-- A candidate whose metrics keep the loop going with low identity
preservation (0.90 structural similarity, 0.80 identity preservation). -/
def sampleLowIdCandidate : Candidate :=
  { id := "t1", b64 := "b64", params := sampleParams
    metrics := { structural_similarity := 0.90, identity_preservation := 0.80
                 inference_time := 5 } }

/-- A candidate whose metrics keep the loop going with high identity
preservation (0.90 structural similarity, 0.91 identity preservation). -/
def sampleHighIdCandidate : Candidate :=
  { id := "t2", b64 := "b64", params := sampleParams
    metrics := { structural_similarity := 0.90, identity_preservation := 0.91
                 inference_time := 5 } }

/-- A candidate whose fitness (0.94) exceeds the 0.92 target threshold. -/
def sampleWinningCandidate : Candidate :=
  { id := "t3", b64 := "b64", params := sampleParams
    metrics := { structural_similarity := 0.95, identity_preservation := 0.93
                 inference_time := 5 } }

/-- A controller state with a selected file, the lock held, and an active
auto-pilot session - i.e. a job in flight during optimization. -/
def sampleBusyState : ControllerState :=
  { taskId := some "t1", isProcessing := true, selectedFile := some "a.png"
    recommendedParams := sampleParams, optimization := sampleOptActive }

/-! Claim theorems. -/

/-- C1: a submission attempted while a prior job is non-terminal (the
`isProcessing` lock is held) or while no asset is selected fails locally and
performs zero network requests, in both the custom controller
(`startFusingSequence`) and the static fusion controller
(`ui.btnGenerate.onclick`); the Remote Job API is never contacted on such a
call. -/
theorem submit_precondition_no_network :
    (∀ (st : ControllerState) (resp : TransformResponse),
        st.isProcessing = true ∨ st.selectedFile = none →
        startFusingSequence st resp = (st, .rejectedPrecondition, 0)) ∧
    (∀ (hasFile busy : Bool) (gatewayData : Option String),
        busy = true ∨ hasFile = false →
        labImageGenerateOnclick hasFile busy gatewayData = (.localAlert, 0)) := by
  constructor
  · intro st resp h
    unfold startFusingSequence
    rcases h with h | h <;> simp [h]
  · intro hasFile busy gatewayData h
    unfold labImageGenerateOnclick
    rcases h with h | h <;> simp [h]

/-- Witness for C1: both guards fire at a concrete busy state and a concrete
no-file click, with zero requests performed. -/
theorem submit_precondition_no_network_witness :
    startFusingSequence sampleBusyState (.ok "t9") =
      (sampleBusyState, .rejectedPrecondition, 0) ∧
    labImageGenerateOnclick false false none = (.localAlert, 0) :=
  ⟨submit_precondition_no_network.1 sampleBusyState (.ok "t9") (Or.inl rfl),
   submit_precondition_no_network.2 false false none (Or.inr rfl)⟩

/-- C2: `initializeFusion` starts every session with a zero attempt counter
(budget 5 in the shipped state object); along any session trace of the v19.7
loop the attempt counter never exceeds `maxAttempts`; and the iteration whose
candidate reaches the target threshold, or whose incremented counter reaches
the budget, deactivates the session and halts (no resubmission is
scheduled). -/
theorem attempt_budget_invariant :
    (∀ (st : ControllerState) (b : Bool),
        (initializeFusion st b).optimization.attempts = 0 ∧
        (initializeFusion st b).optimization.maxAttempts =
          st.optimization.maxAttempts) ∧
    initialState.optimization.maxAttempts = 5 ∧
    (∀ (opt : Optimization) (p : RecommendedParams)
        (inputs : List (Candidate × ℚ)),
        opt.attempts < opt.maxAttempts →
        ∀ o ∈ sessionTrace opt p inputs, o.attempts ≤ opt.maxAttempts) ∧
    (∀ (opt : Optimization) (p : RecommendedParams) (c : Candidate) (rand : ℚ),
        fitness c.metrics ≥ opt.targetThreshold ∨
          opt.attempts + 1 ≥ opt.maxAttempts →
        (handleOptimizationLoop opt p c rand).optimization.active = false ∧
        (handleOptimizationLoop opt p c rand).decision = LoopDecision.halt) := by
  refine ⟨fun st b => ⟨rfl, rfl⟩, rfl, ?_, ?_⟩
  · intro opt p inputs h o ho
    exact sessionTrace_attempts_le inputs opt p h o ho
  · intro opt p c rand h
    exact handleLoop_stop opt p c rand h

/-- Witness for C2: a session step on a candidate whose fitness 0.94 exceeds
the 0.92 threshold deactivates the session and halts, and the state traced
from a fresh session stays within the budget of 5. -/
theorem attempt_budget_invariant_witness :
    ((handleOptimizationLoop sampleOptActive sampleParams sampleWinningCandidate
        0).optimization.active = false ∧
      (handleOptimizationLoop sampleOptActive sampleParams sampleWinningCandidate
        0).decision = LoopDecision.halt) ∧
    (handleOptimizationLoop sampleOptActive sampleParams sampleWinningCandidate
        0).optimization.attempts ≤ sampleOptActive.maxAttempts := by
  refine ⟨attempt_budget_invariant.2.2.2 sampleOptActive sampleParams
      sampleWinningCandidate 0 (Or.inl ?_), ?_⟩
  · norm_num [fitness, sampleWinningCandidate, sampleOptActive]
  · refine attempt_budget_invariant.2.2.1 sampleOptActive sampleParams
      [(sampleWinningCandidate, 0)] (by norm_num [sampleOptActive])
      _ ?_
    cases hdec : (handleOptimizationLoop sampleOptActive sampleParams
        sampleWinningCandidate 0).decision <;>
      simp [sessionTrace, hdec]

/-- C3: the fitness used by every consumer is the unweighted mean of
`structural_similarity` and `identity_preservation` (recomputed, not stored:
a Candidate is fully determined by its four fields id / b64 / metrics /
params, and the gallery recomputes the same mean); each v19.7 loop step sets
`bestScore` to the maximum of its prior value and the candidate's fitness, so
`bestScore` is non-decreasing across successive steps of a session. -/
theorem bestScore_monotone_and_derived :
    (∀ m : Metrics,
        fitness m = (m.structural_similarity + m.identity_preservation) / 2) ∧
    (∀ (opt : Optimization) (p : RecommendedParams) (c : Candidate) (rand : ℚ),
        (handleOptimizationLoop opt p c rand).optimization.bestScore =
          max opt.bestScore (fitness c.metrics)) ∧
    (∀ (opt : Optimization) (p : RecommendedParams)
        (inputs : List (Candidate × ℚ)),
        List.Chain' (fun a b : Optimization => a.bestScore ≤ b.bestScore)
          (opt :: sessionTrace opt p inputs)) ∧
    (∀ c : Candidate, galleryScore c = round (fitness c.metrics * 100)) ∧
    (∀ c₁ c₂ : Candidate, c₁.id = c₂.id → c₁.b64 = c₂.b64 →
        c₁.metrics = c₂.metrics → c₁.params = c₂.params → c₁ = c₂) := by
  refine ⟨fun m => rfl, handleLoop_bestScore, ?_, fun c => rfl, ?_⟩
  · intro opt p inputs
    exact sessionTrace_chain_bestScore inputs opt p
  · intro c₁ c₂ h1 h2 h3 h4
    cases c₁
    cases c₂
    simp_all

/-- Witness for C3: the candidate-extensionality conjunct applied at a
concrete candidate. -/
theorem bestScore_monotone_and_derived_witness :
    sampleLowIdCandidate = sampleLowIdCandidate :=
  bestScore_monotone_and_derived.2.2.2.2 sampleLowIdCandidate
    sampleLowIdCandidate rfl rfl rfl rfl

/-- The v19.5 supervisor hands the mutated parameter set to the resubmission
path. -/
theorem superviseV195_resubmit_params (opt : Optimization)
    (p : RecommendedParams) (m : Metrics) (randSeed randPose : ℚ)
    (h : (superviseV195 opt p m randSeed randPose).decision =
      LoopDecision.resubmit) :
    (superviseV195 opt p m randSeed randPose).params =
      mutateParamsV195 p m randSeed randPose := by
  unfold superviseV195 at h ⊢
  dsimp only at h ⊢
  split_ifs at h ⊢ <;> simp_all

/-- The v19.5 depth mutation is also an increase clamped above at 1.2. -/
theorem mutateV195_depth_bounds (p : RecommendedParams) (m : Metrics)
    (randSeed randPose : ℚ) (h : p.cn_depth ≤ 1.2) :
    p.cn_depth ≤ (mutateParamsV195 p m randSeed randPose).cn_depth ∧
    (mutateParamsV195 p m randSeed randPose).cn_depth ≤ 1.2 := by
  rw [mutateV195_depth]
  split_ifs
  · exact ⟨le_min h (by linarith), min_le_left _ _⟩
  · exact ⟨le_refl _, h⟩

/-- A parameter set whose strength sits at the v19.7 ceiling 0.95. -/
def sampleParamsHighStrength : RecommendedParams :=
  { cn_depth := 0.75, cn_pose := 0.40, strength := 0.95
    negative_prompt := "anime, cartoon, low quality", seed := 42 }

/-- A candidate with high identity preservation produced with
`sampleParamsHighStrength`. -/
def sampleHighIdCandidateHS : Candidate :=
  { id := "t4", b64 := "b64", params := sampleParamsHighStrength
    metrics := { structural_similarity := 0.90, identity_preservation := 0.91
                 inference_time := 5 } }

/-- Counterexample to C4: the v19.7 controller clamps strength to
[0.50, 0.95], not to the claimed [0.4, 1.0].  At strength 0.51 with identity
preservation 0.80 the code yields max(0.50, 0.49) = 0.50 where the claim
predicts max(0.4, 0.49) = 0.49, and at strength 0.95 with identity
preservation 0.91 the code yields min(0.95, 0.96) = 0.95 where the claim
predicts min(1.0, 0.96) = 0.96; both steps decide Continue. -/
theorem strength_interval_counterexample :
    (handleOptimizationLoop sampleOptActive sampleParams sampleLowIdCandidate
        0).decision = LoopDecision.resubmit ∧
    (handleOptimizationLoop sampleOptActive sampleParams sampleLowIdCandidate
        0).params.strength = 0.50 ∧
    (handleOptimizationLoop sampleOptActive sampleParams sampleLowIdCandidate
        0).params.strength ≠ max 0.4 (sampleParams.strength - 0.02) ∧
    (handleOptimizationLoop sampleOptActive sampleParamsHighStrength
        sampleHighIdCandidateHS 0).decision = LoopDecision.resubmit ∧
    (handleOptimizationLoop sampleOptActive sampleParamsHighStrength
        sampleHighIdCandidateHS 0).params.strength = 0.95 ∧
    (handleOptimizationLoop sampleOptActive sampleParamsHighStrength
        sampleHighIdCandidateHS 0).params.strength ≠
      min 1.0 (sampleParamsHighStrength.strength + 0.01) := by
  norm_num [handleOptimizationLoop, mutateParamsV197, fitness, sampleOptActive,
    sampleParams, sampleLowIdCandidate, sampleParamsHighStrength,
    sampleHighIdCandidateHS]

/-- C4 (amended): on every v19.7 optimizer step that decides Continue, if the
candidate's identity preservation is below 0.90 the next strength is the
current strength minus 0.02 clamped below at 0.50, otherwise it is the
current strength plus 0.01 clamped above at 0.95; exactly one of the two
rules fires per iteration.  In the earlier v19.5 revision the steps are
-0.03 / +0.01 with the clamp interval [0.40, 1.0]. -/
theorem strength_mutation_rule_amended :
    (∀ (opt : Optimization) (p : RecommendedParams) (c : Candidate) (rand : ℚ),
        (handleOptimizationLoop opt p c rand).decision = LoopDecision.resubmit →
        (handleOptimizationLoop opt p c rand).params.strength =
          if c.metrics.identity_preservation < 0.90 then
            max 0.50 (p.strength - 0.02)
          else min 0.95 (p.strength + 0.01)) ∧
    (∀ (p : RecommendedParams) (m : Metrics) (randSeed randPose : ℚ),
        (mutateParamsV195 p m randSeed randPose).strength =
          if m.identity_preservation < 0.90 then max 0.40 (p.strength - 0.03)
          else min 1.0 (p.strength + 0.01)) := by
  constructor
  · intro opt p c rand h
    rw [handleLoop_resubmit_params opt p c rand h, mutateV197_strength]
  · intro p m randSeed randPose
    exact mutateV195_strength p m randSeed randPose

/-- Witness for C4 (amended): a continuing step with identity preservation
0.91 raises strength by 0.01 capped at 0.95. -/
theorem strength_mutation_rule_amended_witness :
    (handleOptimizationLoop sampleOptActive sampleParams sampleHighIdCandidate
        0).params.strength = min 0.95 (sampleParams.strength + 0.01) := by
  have h := strength_mutation_rule_amended.1 sampleOptActive sampleParams
    sampleHighIdCandidate 0
    (by norm_num [handleOptimizationLoop, mutateParamsV197, fitness,
      sampleOptActive, sampleParams, sampleHighIdCandidate])
  rw [h]
  norm_num [sampleHighIdCandidate]

/-- Counterexample to C5: the current v19.7 optimizer applies no pose
perturbation at all - on a step that decides Continue the pose parameter is
returned unchanged, whereas the claimed rule (a draw of 1 giving the maximal
positive perturbation) would move 0.40 to 0.425. -/
theorem pose_perturbation_counterexample :
    (handleOptimizationLoop sampleOptActive sampleParams sampleHighIdCandidate
        1).decision = LoopDecision.resubmit ∧
    (handleOptimizationLoop sampleOptActive sampleParams sampleHighIdCandidate
        1).params.cn_pose = sampleParams.cn_pose ∧
    sampleParams.cn_pose ≠
      max 0.2 (min 0.8 (sampleParams.cn_pose + ((1 : ℚ) - 0.5) * 0.05)) := by
  norm_num [handleOptimizationLoop, mutateParamsV197, fitness, sampleOptActive,
    sampleParams, sampleHighIdCandidate]

/-- C5 (amended): the symmetric random pose perturbation exists only in the
v19.5 revision of the controller: on every v19.5 supervisor step that decides
Continue the next pose is `clamp(0.2, 0.8, pose + (r - 0.5) * 0.05)`, whose
offset has magnitude at most 0.025 for any draw r in [0, 1], and the pose
update is independent of the observed metric values; the current v19.7
controller leaves pose unchanged on every step. -/
theorem pose_perturbation_amended :
    (∀ (opt : Optimization) (p : RecommendedParams) (m : Metrics)
        (randSeed randPose : ℚ),
        (superviseV195 opt p m randSeed randPose).decision =
          LoopDecision.resubmit →
        (superviseV195 opt p m randSeed randPose).params.cn_pose =
          max 0.2 (min 0.8 (p.cn_pose + (randPose - 0.5) * 0.05))) ∧
    (∀ (p : RecommendedParams) (m₁ m₂ : Metrics) (randSeed randPose : ℚ),
        (mutateParamsV195 p m₁ randSeed randPose).cn_pose =
          (mutateParamsV195 p m₂ randSeed randPose).cn_pose) ∧
    (∀ randPose : ℚ, 0 ≤ randPose → randPose ≤ 1 →
        |(randPose - 0.5) * 0.05| ≤ 0.025) ∧
    (∀ (p : RecommendedParams) (m : Metrics) (rand : ℚ),
        (mutateParamsV197 p m rand).cn_pose = p.cn_pose) := by
  refine ⟨?_, ?_, ?_, mutateV197_pose⟩
  · intro opt p m randSeed randPose h
    rw [superviseV195_resubmit_params opt p m randSeed randPose h,
      mutateV195_pose]
  · intro p m₁ m₂ randSeed randPose
    rw [mutateV195_pose, mutateV195_pose]
  · intro randPose h0 h1
    rw [abs_le]
    constructor <;> nlinarith

/-- Witness for C5 (amended): a continuing v19.5 step with draw 1 moves pose
0.40 to 0.425, and the offset magnitude at draw 1 is exactly 0.025. -/
theorem pose_perturbation_amended_witness :
    (superviseV195 sampleOptActive sampleParams
        sampleHighIdCandidate.metrics 0 1).params.cn_pose =
      max 0.2 (min 0.8 (sampleParams.cn_pose + ((1 : ℚ) - 0.5) * 0.05)) ∧
    |((1 : ℚ) - 0.5) * 0.05| ≤ 0.025 :=
  ⟨pose_perturbation_amended.1 sampleOptActive sampleParams
      sampleHighIdCandidate.metrics 0 1
      (by norm_num [superviseV195, mutateParamsV195, sampleOptActive,
        sampleParams, sampleHighIdCandidate]),
   pose_perturbation_amended.2.2.1 1 (by norm_num) (by norm_num)⟩

/-- C10: within one v19.7 session the depth parameter is only ever increased
by the fixed 0.03 step clamped above at 1.2 (and in the v19.5 revision by
0.05, same cap), so whenever the session starts with depth at most 1.2 the
depth is monotonically non-decreasing across iterations and stays between its
initial value and 1.2 for the whole session. -/
theorem depth_monotone_session :
    (∀ (p : RecommendedParams) (m : Metrics) (rand : ℚ),
        (mutateParamsV197 p m rand).cn_depth =
          if m.structural_similarity < 0.88 then min 1.2 (p.cn_depth + 0.03)
          else p.cn_depth) ∧
    (∀ (opt : Optimization) (p : RecommendedParams)
        (inputs : List (Candidate × ℚ)),
        p.cn_depth ≤ 1.2 →
        (∀ q ∈ paramsTrace opt p inputs,
          p.cn_depth ≤ q.cn_depth ∧ q.cn_depth ≤ 1.2) ∧
        List.Chain' (fun a b : RecommendedParams => a.cn_depth ≤ b.cn_depth)
          (p :: paramsTrace opt p inputs)) ∧
    (∀ (p : RecommendedParams) (m : Metrics) (randSeed randPose : ℚ),
        p.cn_depth ≤ 1.2 →
        p.cn_depth ≤ (mutateParamsV195 p m randSeed randPose).cn_depth ∧
        (mutateParamsV195 p m randSeed randPose).cn_depth ≤ 1.2) := by
  refine ⟨mutateV197_depth, ?_, ?_⟩
  · intro opt p inputs h
    exact ⟨paramsTrace_depth_bounds inputs opt p h,
      paramsTrace_chain_depth inputs opt p h⟩
  · intro p m randSeed randPose h
    exact mutateV195_depth_bounds p m randSeed randPose h

/-- Witness for C10: depth stays monotone and bounded along a concrete
one-step session starting at depth 0.75, and the v19.5 single-step bounds
hold at the same start. -/
theorem depth_monotone_session_witness :
    List.Chain' (fun a b : RecommendedParams => a.cn_depth ≤ b.cn_depth)
      (sampleParams :: paramsTrace sampleOptActive sampleParams
        [(sampleLowIdCandidate, 0)]) ∧
    sampleParams.cn_depth ≤
      (mutateParamsV195 sampleParams sampleLowIdCandidate.metrics 0 0).cn_depth :=
  ⟨(depth_monotone_session.2.1 sampleOptActive sampleParams
      [(sampleLowIdCandidate, 0)] (by norm_num [sampleParams])).2,
   (depth_monotone_session.2.2 sampleParams sampleLowIdCandidate.metrics 0 0
      (by norm_num [sampleParams])).1⟩

/-- A controller state mid-session between jobs: a file is selected, the lock
was released for the scheduled resubmission, and the auto-pilot session is
still active. -/
def sampleResubmitState : ControllerState :=
  { taskId := some "t1", isProcessing := false, selectedFile := some "a.png"
    recommendedParams := sampleParams, optimization := sampleOptActive }

/-- A polling state outside any auto-pilot session (optimization inactive). -/
def samplePlainPollingState : ControllerState :=
  { taskId := some "t7", isProcessing := true, selectedFile := some "a.png"
    recommendedParams := sampleParams
    optimization := initialState.optimization }

/-- C6: the code violates the session-liveness invariant.  With an active
auto-pilot session, a thrown fetch error during polling clears the poll
interval and releases the lock but leaves `optimization.active = true` with
no resubmission scheduled; likewise a 429 Busy response to the in-session
submission returns after the alert with the session still flagged active and
no poll loop started.  The claim (and spec section 7) require the session to
be marked inactive on exactly these paths. -/
theorem session_liveness_violation :
    (pollInferenceTelemetryTick sampleBusyState .transportError).clearsInterval
      = true ∧
    (pollInferenceTelemetryTick sampleBusyState
        .transportError).schedulesRender = false ∧
    (pollInferenceTelemetryTick sampleBusyState
        .transportError).st.optimization.active = true ∧
    (pollInferenceTelemetryTick sampleBusyState
        .transportError).st.isProcessing = false ∧
    (startFusingSequence sampleResubmitState .busy429).2.1 =
      SubmitOutcome.lockedBusy ∧
    (startFusingSequence sampleResubmitState
        .busy429).1.optimization.active = true ∧
    (startFusingSequence sampleResubmitState .busy429).1.isProcessing = false :=
  ⟨rfl, rfl, rfl, rfl, rfl, rfl, rfl⟩

/-- Counterexample to C7: in the custom controller's poll loop
(`pollInferenceTelemetry`), a transport error on one tick is not swallowed -
the catch clears the interval, so polling does not continue on the next
tick. -/
theorem poll_error_custom_counterexample :
    (pollInferenceTelemetryTick samplePlainPollingState
        .transportError).clearsInterval ≠ false ∧
    (pollInferenceTelemetryTick samplePlainPollingState
        .transportError).clearsInterval = true := by
  constructor
  · intro h
    cases h
  · rfl

/-- C7 (amended): in the shared bridge poller (`pollNeuralTask`) a transport
error on one tick is swallowed (no callback is invoked) and polling continues
on the next tick, and the loop ends exactly on an explicit terminal SUCCESS
or FAILURE payload; the custom controller's `pollInferenceTelemetry` instead
stops its loop on the first transport error. -/
theorem poll_error_semantics_amended :
    ((pollNeuralTaskTick .transportError).action =
        BridgeTickAction.keepPolling ∧
      (pollNeuralTaskTick .transportError).progressOut = none) ∧
    (∀ (pct : ℤ) (s : String),
        (pollNeuralTaskTick (.progress pct s)).action =
          BridgeTickAction.keepPolling) ∧
    (∀ e : BridgePollEvent,
        (pollNeuralTaskTick e).action ≠ BridgeTickAction.keepPolling ↔
          (e = .failure ∨ ∃ r, e = .success r)) ∧
    (∀ st : ControllerState, st.taskId ≠ none →
        (pollInferenceTelemetryTick st .transportError).clearsInterval =
          true) := by
  refine ⟨⟨rfl, rfl⟩, fun pct s => rfl, ?_, ?_⟩
  · intro e
    cases e with
    | progress pct s => simp [pollNeuralTaskTick]
    | success r =>
      simp only [pollNeuralTaskTick]
      constructor
      · intro _
        exact Or.inr ⟨r, rfl⟩
      · intro _
        split_ifs <;> simp
    | failure => simp [pollNeuralTaskTick]
    | transportError => simp [pollNeuralTaskTick]
  · intro st h
    cases hst : st.taskId with
    | none => exact absurd hst h
    | some t => simp [pollInferenceTelemetryTick, hst]

/-- Witness for C7 (amended): the custom loop stops on a transport error in a
concrete polling state, while the bridge keeps polling. -/
theorem poll_error_semantics_amended_witness :
    (pollInferenceTelemetryTick samplePlainPollingState
        .transportError).clearsInterval = true ∧
    (pollNeuralTaskTick .transportError).action =
      BridgeTickAction.keepPolling :=
  ⟨poll_error_semantics_amended.2.2.2 samplePlainPollingState
      (by simp [samplePlainPollingState]),
   poll_error_semantics_amended.1.1⟩

/-- Counterexample to C8: in the shared bridge poller the follow-up result
fetch treats HTTP 202 as `Response.ok`, so the not-yet-materialized body is
handed to `onComplete` immediately - there is no 500 ms retry and the
delivered payload is the pending one. -/
theorem result_fetch_202_bridge_counterexample :
    responseOk 202 = true ∧
    pollNeuralTaskTick (.success { code := 202, body := "PENDING" }) =
      { action := BridgeTickAction.stopWithComplete (some "PENDING")
        progressOut := none } :=
  ⟨rfl, rfl⟩

/-- C8 (amended): in the custom controller, `renderFinalMasterwork` retries
the result fetch after a 500 ms delay on every 202 response and, once a
materialized response arrives, delivers the decoded Candidate (carrying the
parameters that produced it) without reporting any error; the shared bridge's
`pollNeuralTask` instead treats 202 as ok and delivers its body at once. -/
theorem result_fetch_202_retry_amended :
    ∀ (k : ℕ) (taskId : String) (p : RecommendedParams) (b64 : String)
      (m : Metrics) (rest : List ResultResponse),
      renderFetchLoop taskId p
          (List.replicate k .pending202 ++ .ok b64 m :: rest) =
        { delivered := some { id := taskId, b64 := b64, metrics := m
                              params := p }
          delaysMs := List.replicate k 500
          errorHandled := false } := by
  intro k
  induction k with
  | zero =>
    intro taskId p b64 m rest
    simp [renderFetchLoop]
  | succ n ih =>
    intro taskId p b64 m rest
    simp [List.replicate_succ, renderFetchLoop, ih]

/-- Counterexample to C9: the shared bridge does not pass the received percent
through unaltered - a received percent of 0 is delivered to `onProgress` as 2
(the warm-up display tweak), so the delivered value differs from the received
one. -/
theorem progress_zero_rewritten_counterexample :
    (pollNeuralTaskTick (.progress 0 "INIT")).progressOut = some 2 ∧
    (pollNeuralTaskTick (.progress 0 "INIT")).progressOut ≠ some 0 := by
  refine ⟨rfl, ?_⟩
  intro h
  simp [pollNeuralTaskTick] at h

/-- C9 (amended): the custom controller displays exactly the received percent;
the shared bridge delivers one callback per PROGRESS response in the order
received, with the percent passed through unaltered except that a received 0
is replaced by 2, so the delivered sequence is non-decreasing whenever the
received sequence is non-decreasing and contains no zero. -/
theorem progress_passthrough_amended :
    (∀ (pct : ℤ) (s : String),
        (pollNeuralTaskTick (.progress pct s)).progressOut =
          some (if pct = 0 then 2 else pct)) ∧
    (∀ percents : List ℤ,
        progressDeliveries percents =
          percents.map (fun pct => if pct = 0 then 2 else pct)) ∧
    (∀ percents : List ℤ, (∀ x ∈ percents, x ≠ 0) →
        List.Chain' (fun a b : ℤ => a ≤ b) percents →
        List.Chain' (fun a b : ℤ => a ≤ b) (progressDeliveries percents)) ∧
    (∀ (st : ControllerState) (pct : ℤ) (preview : Option String),
        st.taskId ≠ none →
        (pollInferenceTelemetryTick st (.progress pct preview)).displayedPercent
          = some pct) := by
  have hmap : ∀ percents : List ℤ,
      progressDeliveries percents =
        percents.map (fun pct => if pct = 0 then 2 else pct) := by
    intro percents
    induction percents with
    | nil => rfl
    | cons a l ih => simp [progressDeliveries, pollNeuralTaskTick] at ih ⊢; exact ih
  have hid : ∀ percents : List ℤ, (∀ x ∈ percents, x ≠ 0) →
      percents.map (fun pct => if pct = 0 then 2 else pct) = percents := by
    intro percents h
    induction percents with
    | nil => rfl
    | cons a l ih =>
      simp only [List.map_cons]
      rw [if_neg (h a (List.mem_cons_self a l)), ih
        (fun x hx => h x (List.mem_cons_of_mem a hx))]
  refine ⟨fun pct s => rfl, hmap, ?_, ?_⟩
  · intro percents hnz hchain
    rw [hmap, hid percents hnz]
    exact hchain
  · intro st pct preview h
    cases hst : st.taskId with
    | none => exact absurd hst h
    | some t => simp [pollInferenceTelemetryTick, hst]

/-- Witness for C9 (amended): order preservation on the nonzero received
sequence [5, 10] and exact pass-through of percent 37 in the custom
controller. -/
theorem progress_passthrough_amended_witness :
    List.Chain' (fun a b : ℤ => a ≤ b) (progressDeliveries [5, 10]) ∧
    (pollInferenceTelemetryTick samplePlainPollingState
        (.progress 37 none)).displayedPercent = some 37 :=
  ⟨progress_passthrough_amended.2.2.1 [5, 10] (by decide)
      (by norm_num [List.chain'_cons, List.chain'_singleton]),
   progress_passthrough_amended.2.2.2 samplePlainPollingState 37 none
     (by simp [samplePlainPollingState])⟩
